import Mathlib

/-!
Verification of the pinpoint-eda scan orchestration core against its
specification.  The definitions below are a shallow embedding of the
Python source under src/pinpoint_eda: config.py (scan fingerprint),
rate_limiter.py (token bucket and retry policy), checkpoint.py
(checkpoint state machine), executor.py (parallel map with cooperative
shutdown), region_discovery.py (parallel region probing) and
_orchestrator.py (per-account control flow).
-/

namespace PinpointEDA

/-! ### config.py -/

/-- Embeds AccountConfig (config.py lines 12-28): four optional string
fields.  model_dump serializes all four fields. -/
structure AccountConfig where
  profile : Option String
  role_arn : Option String
  external_id : Option String
  «alias» : Option String
deriving DecidableEq, Repr

/-- Embeds ScanConfig (config.py lines 31-46) with all of its fields. -/
structure ScanConfig where
  accounts : List AccountConfig
  regions : List String
  app_ids : List String
  scanners : List String
  max_workers : Nat
  kpi_days : Nat
  output_dir : String
  resume : Bool
  fresh : Bool
  json_only : Bool
  verbose : Bool
  no_sms_voice_v2 : Bool
  dry_run : Bool
deriving DecidableEq, Repr

/-- Embeds pythons sorted() on a list of strings: the nondecreasing
permutation of the input under the string order. -/
def sortStrings (l : List String) : List String :=
  List.insertionSort (fun a b => a ≤ b) l

/-- The key_fields dictionary built by ScanConfig.config_hash
(config.py lines 50-56): accounts serialized per model_dump in list
order, regions, app_ids and scanners sorted, plus the no_sms_voice_v2
flag.  json.dumps with sort_keys is injective on this shape, and the
sha256-16-hex-character digest is modelled as that injective canonical
encoding itself, so equality of ConfigKeyFields values models equality
of digests. -/
structure ConfigKeyFields where
  accounts : List AccountConfig
  regions : List String
  app_ids : List String
  scanners : List String
  no_sms_voice_v2 : Bool
deriving DecidableEq, Repr

/-- Embeds ScanConfig.config_hash (config.py lines 48-58), up to the
injective-serialization modelling of the sha256 digest described at
ConfigKeyFields. -/
def ScanConfig.config_hash (c : ScanConfig) : ConfigKeyFields :=
  { accounts := c.accounts
    regions := sortStrings c.regions
    app_ids := sortStrings c.app_ids
    scanners := sortStrings c.scanners
    no_sms_voice_v2 := c.no_sms_voice_v2 }

/-! ### rate_limiter.py — retry policy -/

/-- THROTTLE_ERROR_CODES (rate_limiter.py lines 20-26). -/
def THROTTLE_ERROR_CODES : List String :=
  ["ThrottlingException", "TooManyRequestsException", "Throttling",
   "RequestLimitExceeded", "ProvisionedThroughputExceededException"]

/-- MAX_RETRIES (rate_limiter.py line 28). -/
def MAX_RETRIES : Nat := 5

/-- A botocore ClientError as call_with_retry inspects it: the error
code string and the HTTP status code. -/
structure ClientErr where
  code : String
  status : Nat
deriving DecidableEq, Repr

/-- is_throttle (rate_limiter.py line 74): code in
THROTTLE_ERROR_CODES or HTTP status 429. -/
def isThrottle (e : ClientErr) : Bool :=
  THROTTLE_ERROR_CODES.contains e.code || e.status == 429

/-- is_server_error (rate_limiter.py line 75): HTTP status at least
500. -/
def isServerError (e : ClientErr) : Bool :=
  500 ≤ e.status

/-- A retryable failure: throttling or server error (rate_limiter.py
line 77 retries exactly when one of the two classifications holds). -/
def isRetryable (e : ClientErr) : Bool :=
  isThrottle e || isServerError e

/-- Outcome of one invocation of the wrapped function: a return value
or a raised ClientError. -/
inductive CallResult (α : Type) where
  | ok (v : α)
  | clientError (e : ClientErr)
deriving DecidableEq, Repr

/-- Outcome of call_with_retry as a whole: the success value, a
non-retryable ClientError re-raised as-is, or the distinct
RateLimitExceededError wrapping the last underlying failure
(rate_limiter.py lines 95-97). -/
inductive RetryOutcome (α : Type) where
  | success (v : α)
  | raised (e : ClientErr)
  | rateLimitExceeded (last : Option ClientErr)
deriving DecidableEq, Repr

/-- The retry loop of call_with_retry (rate_limiter.py lines 64-97).
The wrapped function is modelled as a map from invocation index to its
outcome.  Arguments: remaining loop iterations, current attempt index,
retries so far, invocations so far, last retryable failure.  Returns
the outcome together with the increase of total_retries and the number
of invocations made.  Sleeps and acquire() are timing, not data flow,
and are elided. -/
def callWithRetryAux {α : Type} (f : Nat → CallResult α) :
    Nat → Nat → Nat → Nat → Option ClientErr → RetryOutcome α × Nat × Nat
  | 0, _, retries, calls, last => (.rateLimitExceeded last, retries, calls)
  | remaining + 1, attempt, retries, calls, _last =>
    match f attempt with
    | .ok v => (.success v, retries, calls + 1)
    | .clientError e =>
      if isRetryable e then
        callWithRetryAux f remaining (attempt + 1) (retries + 1) (calls + 1) (some e)
      else
        (.raised e, retries, calls + 1)

/-- call_with_retry (rate_limiter.py lines 64-97): the loop runs for
attempt in range(MAX_RETRIES + 1). -/
def call_with_retry {α : Type} (f : Nat → CallResult α) : RetryOutcome α × Nat × Nat :=
  callWithRetryAux f (MAX_RETRIES + 1) 0 0 0 none

/-! ### rate_limiter.py — token bucket -/

/-- RateLimiter mutable state (rate_limiter.py lines 35-43).  Floats
and monotonic timestamps are modelled as rationals. -/
structure RateLimiterState where
  tokens : ℚ
  max_tokens : ℚ
  refill_rate : ℚ
  last_refill : ℚ
  total_calls : Nat
  total_retries : Nat
deriving DecidableEq, Repr

/-- RateLimiter.__init__ (rate_limiter.py lines 35-43) at start time
now: bucket full at requests_per_second. -/
def RateLimiterState.init (requests_per_second : ℚ) (now : ℚ) : RateLimiterState :=
  { tokens := requests_per_second
    max_tokens := requests_per_second
    refill_rate := requests_per_second
    last_refill := now
    total_calls := 0
    total_retries := 0 }

/-- _refill (rate_limiter.py lines 57-62): tokens become
min(capacity, tokens + elapsed * refill_rate). -/
def refill (s : RateLimiterState) (now : ℚ) : RateLimiterState :=
  { s with
    tokens := min s.max_tokens (s.tokens + (now - s.last_refill) * s.refill_rate)
    last_refill := now }

/-- One iteration of the acquire() wait loop (rate_limiter.py lines
45-55): refill, then if at least one token is available take it and
count the call (returning true); otherwise leave the refilled state
and report that the caller must sleep and retry (returning false —
the loop never raises). -/
def tryAcquire (s : RateLimiterState) (now : ℚ) : RateLimiterState × Bool :=
  let s1 := refill s now
  if 1 ≤ s1.tokens then
    ({ s1 with tokens := s1.tokens - 1, total_calls := s1.total_calls + 1 }, true)
  else
    (s1, false)

/-- n consecutive acquire() loop iterations all at the same timestamp
(instantaneous back-to-back acquires). -/
def iterTryAcquire (now : ℚ) : Nat → RateLimiterState → RateLimiterState
  | 0, s => s
  | n + 1, s => iterTryAcquire now n (tryAcquire s now).1

/-! ### checkpoint.py -/

/-- Update of a python dict entry: replace the value when the key is
present, otherwise append the binding at the end. -/
def setKV {α : Type} : List (String × α) → String → α → List (String × α)
  | [], k, v => [(k, v)]
  | (k1, v1) :: rest, k, v =>
    if k1 = k then (k1, v) :: rest else (k1, v1) :: setKV rest k v

/-- A completed entry (checkpoint.py lines 101-104): resource_count
and completed_at timestamp. -/
structure CompletedEntry where
  resource_count : Nat
  completed_at : String
deriving DecidableEq, Repr

/-- An errors entry (checkpoint.py lines 115-119). -/
structure ErrorEntry where
  key : String
  error : String
  timestamp : String
deriving DecidableEq, Repr

/-- The checkpoint state dictionary (checkpoint.py lines 45-54),
parametric in the type of stored scan results. -/
structure CheckpointState (ρ : Type) where
  run_id : String
  started_at : String
  config_hash : ConfigKeyFields
  discovered_regions : List (String × List String)
  completed : List (String × CompletedEntry)
  in_progress : List String
  errors : List ErrorEntry
  scan_results : List (String × ρ)
deriving DecidableEq, Repr

/-- mark_in_progress (checkpoint.py lines 86-93): append the key only
when it is not already present. -/
def mark_in_progress {ρ : Type} (s : CheckpointState ρ) (key : String) : CheckpointState ρ :=
  if key ∈ s.in_progress then s
  else { s with in_progress := s.in_progress ++ [key] }

/-- mark_completed (checkpoint.py lines 95-107): remove the key from
in_progress (list.remove drops the first occurrence), record the
completed entry, and store the result when one is given. -/
def mark_completed {ρ : Type} (s : CheckpointState ρ) (key : String)
    (resource_count : Nat) (result : Option ρ) (now : String) : CheckpointState ρ :=
  { s with
    in_progress := s.in_progress.erase key
    completed := setKV s.completed key { resource_count := resource_count, completed_at := now }
    scan_results :=
      match result with
      | some r => setKV s.scan_results key r
      | none => s.scan_results }

/-- mark_error (checkpoint.py lines 109-120): remove the key from
in_progress and append an error entry. -/
def mark_error {ρ : Type} (s : CheckpointState ρ) (key : String)
    (error : String) (now : String) : CheckpointState ρ :=
  { s with
    in_progress := s.in_progress.erase key
    errors := s.errors ++ [{ key := key, error := error, timestamp := now }] }

/-- is_completed (checkpoint.py lines 122-125): key membership in the
completed dictionary. -/
def is_completed {ρ : Type} (s : CheckpointState ρ) (key : String) : Bool :=
  (s.completed.lookup key).isSome

/-- The fatal checkpoint failures of initialize/_load (checkpoint.py):
ConfigMismatchError (line 39) and CheckpointError on an unreadable
file (line 63) — distinct exception classes. -/
inductive CheckpointFailure where
  | configMismatch
  | loadFailed
deriving DecidableEq, Repr

/-- The fresh state built by initialize (checkpoint.py lines 45-54). -/
def freshState (ρ : Type) (hash : ConfigKeyFields) (run_id : String)
    (now : String) : CheckpointState ρ :=
  { run_id := run_id
    started_at := now
    config_hash := hash
    discovered_regions := []
    completed := []
    in_progress := []
    errors := []
    scan_results := [] }

/-- initialize (checkpoint.py lines 32-55).  The on-disk file is
modelled as Option CheckpointState (none: no file).  Returns the
resulting in-memory state (or the fatal failure) paired with the
on-disk file after the call: the mismatch branch raises without
saving, every other branch builds the fresh state and saves it. -/
def initCheckpoint (ρ : Type) (hash : ConfigKeyFields) (resume : Bool)
    (disk : Option (CheckpointState ρ)) (freshRunId : String) (now : String) :
    Except CheckpointFailure (CheckpointState ρ) × Option (CheckpointState ρ) :=
  match resume, disk with
  | true, some st =>
    if st.config_hash = hash then (.ok st, some st)
    else (.error .configMismatch, some st)
  | true, none =>
    (.ok (freshState ρ hash freshRunId now), some (freshState ρ hash freshRunId now))
  | false, _ =>
    (.ok (freshState ρ hash freshRunId now), some (freshState ρ hash freshRunId now))

/-! ### executor.py -/

/-- The per-item tuple built by map_parallel (executor.py lines
55-62): item with result on success, item with the raised exception on
failure. -/
def resultTuple {α β ε : Type} (f : α → Except ε β) (x : α) :
    α × Option β × Option ε :=
  match f x with
  | .ok v => (x, some v, none)
  | .error e => (x, none, some e)

/-- The possible outcomes of map_parallel (executor.py lines 32-66)
when the dispatch loop submitted the first k items (it breaks at the
first pre-submit check that observes the sticky shutdown event, so
the dispatched items are a prefix; with no shutdown k is the full
length).  Every submitted item runs to completion and yields exactly
one tuple, gathered in completion order — some permutation of the
dispatched items' tuples. -/
def IsMapParallelRun {α β ε : Type} (f : α → Except ε β) (items : List α)
    (k : Nat) (res : List (α × Option β × Option ε)) : Prop :=
  res.Perm ((items.take k).map (resultTuple f))

/-- map_parallel outcomes when no shutdown was requested: all items
dispatched. -/
def IsMapParallelResult {α β ε : Type} (f : α → Except ε β) (items : List α)
    (res : List (α × Option β × Option ε)) : Prop :=
  IsMapParallelRun f items items.length res

/-- request_shutdown (executor.py lines 28-30): sets the event flag. -/
def requestShutdown (_ : Bool) : Bool := true

/-- should_stop (executor.py lines 24-26): reads the event flag. -/
def shouldStop (flag : Bool) : Bool := flag

/-! ### region_discovery.py -/

/-- PINPOINT_REGIONS (region_discovery.py lines 17-38). -/
def PINPOINT_REGIONS : List String :=
  ["us-east-1", "us-east-2", "us-west-2", "ap-south-1", "ap-northeast-1",
   "ap-northeast-2", "ap-southeast-1", "ap-southeast-2", "ca-central-1",
   "eu-central-1", "eu-west-1", "eu-west-2", "eu-north-1", "sa-east-1",
   "me-south-1", "af-south-1", "ap-east-1", "eu-south-1", "eu-west-3",
   "us-west-1"]

/-- Outcome of probing one region: the get_apps call returns a list of
application ids, or raises.  probe_region (region_discovery.py line
63) catches only ClientError and EndpointConnectionError; every other
raised shape — botocore ConnectTimeoutError, ReadTimeoutError,
SSLError, NoCredentialsError and the like — escapes probe_region and
is modelled by the uncaughtError constructor. -/
inductive ProbeOutcome where
  | ok (appIds : List String)
  | clientError (code : String)
  | endpointError
  | uncaughtError
deriving DecidableEq, Repr

/-- Whether a probe outcome escapes the except clause of probe_region. -/
def isUncaught : ProbeOutcome → Bool
  | .uncaughtError => true
  | _ => false

/-- probe_region (region_discovery.py lines 56-75): a probe failure of
either caught shape is returned as the region with an empty id list
(the silent access-denied shape and other caught errors differ only in
logging); any other exception propagates out of probe_region. -/
def probe_region (probe : String → ProbeOutcome) (region : String) :
    Except Unit (String × List String) :=
  match probe region with
  | .ok apps => .ok (region, apps)
  | .clientError _ => .ok (region, [])
  | .endpointError => .ok (region, [])
  | .uncaughtError => .error ()

/-- The per-future body of the discover_regions gather loop
(region_discovery.py lines 82-86) on a future whose probe did not
raise an uncaught exception: keep the probed pair exactly when its
application id list is nonempty. -/
def keepProbe (probe : String → ProbeOutcome) (r : String) :
    Option (String × List String) :=
  match probe_region probe r with
  | .ok p => if p.2.isEmpty then none else some p
  | .error _ => none

/-- The region map discover_regions builds when every probe returned:
exactly the candidate regions whose probe found at least one
application id.  The result dictionary is keyed by region, so its
contents are independent of thread completion order; it is modelled in
candidate order. -/
def discoverMap (probe : String → ProbeOutcome) : List (String × List String) :=
  PINPOINT_REGIONS.filterMap (keepProbe probe)

/-- discover_regions (region_discovery.py lines 41-92): probe every
candidate region; if any probe raised an exception outside the caught
classes, future.result() in the gather loop (line 83) re-raises it and
the whole discovery aborts with no returned map (which exception
propagates depends on completion order, so the error payload is
abstract); otherwise return the map of regions with at least one
application id. -/
def discover_regions (probe : String → ProbeOutcome) :
    Except Unit (List (String × List String)) :=
  if PINPOINT_REGIONS.any (fun r => isUncaught (probe r)) then .error ()
  else .ok (discoverMap probe)

/-! ### _orchestrator.py — per-account control flow -/

/-- What happens when the orchestrator touches an account's session:
get_session raises AWSSessionError (credentials cannot be obtained or
the role cannot be assumed — aws_session.py lines 29-46, 62-88), or
the session is fine but the STS GetCallerIdentity call fails (caught,
account id becomes "unknown" — aws_session.py lines 90-99), or
identity resolution succeeds. -/
inductive SessionOutcome where
  | sessionFail
  | stsFail
  | ok (accountId : String)
deriving DecidableEq, Repr

/-- Outcome of Orchestrator.run over the account loop: either the loop
finished and the listed accounts were scanned, or a PinpointEDAError
escaped and run called sys.exit(1) (_orchestrator.py lines 74-76),
with only the listed accounts scanned before the abort. -/
inductive RunOutcome where
  | completed (scanned : List AccountConfig)
  | fatalExit (scanned : List AccountConfig)
deriving DecidableEq, Repr

/-- The account loop of Orchestrator.run (_orchestrator.py lines
61-64) with the bodies of _scan_account abstracted to their session
behaviour: _scan_account first calls resolve_account_id, which invokes
get_session outside any handler (aws_session.py line 92), so an
AWSSessionError propagates through _scan_account and the loop to the
except PinpointEDAError clause of run, which exits the process; an STS
failure or success lets the account scan proceed.  No shutdown request
is modelled (should_stop stays false). -/
def runAccountsAux (env : AccountConfig → SessionOutcome) :
    List AccountConfig → List AccountConfig → RunOutcome
  | [], scanned => .completed scanned
  | a :: rest, scanned =>
    match env a with
    | .sessionFail => .fatalExit scanned
    | .stsFail => runAccountsAux env rest (scanned ++ [a])
    | .ok _ => runAccountsAux env rest (scanned ++ [a])

/-- Orchestrator.run restricted to the account loop. -/
def orchestratorRun (env : AccountConfig → SessionOutcome)
    (accounts : List AccountConfig) : RunOutcome :=
  runAccountsAux env accounts []

/-- The accounts a run outcome reports as scanned. -/
def RunOutcome.scanned : RunOutcome → List AccountConfig
  | .completed l => l
  | .fatalExit l => l

/-! ### Concrete sample values used by the closed theorems -/

/-- Sample account selecting profile a. -/
def acctA : AccountConfig := { profile := some "a", role_arn := none, external_id := none, «alias» := none }

/-- Sample account selecting profile b. -/
def acctB : AccountConfig := { profile := some "b", role_arn := none, external_id := none, «alias» := none }

/-- A ScanConfig with the pydantic field defaults (config.py lines
34-46) and the given accounts, regions, app_ids and scanners. -/
def mkScanConfig (accts : List AccountConfig) (regs apps scs : List String) : ScanConfig :=
  { accounts := accts, regions := regs, app_ids := apps, scanners := scs,
    max_workers := 5, kpi_days := 90, output_dir := "./pinpoint-eda-output",
    resume := false, fresh := false, json_only := false, verbose := false,
    no_sms_voice_v2 := false, dry_run := false }

/-- The accounts-as-A-then-B configuration of the fingerprint scenario. -/
def cfgAccAB : ScanConfig := mkScanConfig [acctA, acctB] [] [] []

/-- The accounts-as-B-then-A configuration of the fingerprint scenario. -/
def cfgAccBA : ScanConfig := mkScanConfig [acctB, acctA] [] [] []

/-- The single-account configuration of the fingerprint scenario. -/
def cfgAccA : ScanConfig := mkScanConfig [acctA] [] [] []

/-- A configuration with regions, app_ids and scanners in one order. -/
def cfgOrd1 : ScanConfig :=
  mkScanConfig [acctA] ["us-east-1", "eu-west-1"] ["z2", "a1"] ["segments", "campaigns"]

/-- The same configuration with every string list permuted. -/
def cfgOrd2 : ScanConfig :=
  mkScanConfig [acctA] ["eu-west-1", "us-east-1"] ["a1", "z2"] ["campaigns", "segments"]

/-- A configuration with kpi_days 30 and otherwise default fields. -/
def cfgKpi30 : ScanConfig := { mkScanConfig [acctA] ["us-east-1"] [] [] with kpi_days := 30 }

/-- The same key fields as cfgKpi30 with every non-key field changed. -/
def cfgKpi90 : ScanConfig :=
  { mkScanConfig [acctA] ["us-east-1"] [] [] with
    kpi_days := 90, max_workers := 50, output_dir := "./elsewhere",
    resume := true, fresh := true, json_only := true, verbose := true, dry_run := true }

/-- A throttling ClientError (code in THROTTLE_ERROR_CODES). -/
def throttleErr : ClientErr := { code := "ThrottlingException", status := 400 }

/-- A wrapped function whose every invocation throttles. -/
def alwaysThrottle : Nat → CallResult Nat := fun _ => .clientError throttleErr

/-- A wrapped function that throttles on its first two invocations and
then succeeds with 42. -/
def throttleTwice : Nat → CallResult Nat := fun n =>
  if n < 2 then .clientError throttleErr else .ok 42

/-- Sample account x. -/
def acctX : AccountConfig := { profile := some "x", role_arn := none, external_id := none, «alias» := none }

/-- Sample account y. -/
def acctY : AccountConfig := { profile := some "y", role_arn := none, external_id := none, «alias» := none }

/-- A session environment in which account x cannot obtain a session
and every other account resolves fine. -/
def envFailX : AccountConfig → SessionOutcome := fun a =>
  if a = acctX then .sessionFail else .ok "123456789012"

/-- The key fields of an empty configuration. -/
def kfEmpty : ConfigKeyFields :=
  { accounts := [], regions := [], app_ids := [], scanners := [], no_sms_voice_v2 := false }

/-- The key fields of a configuration with one account. -/
def kfA : ConfigKeyFields :=
  { accounts := [acctA], regions := [], app_ids := [], scanners := [], no_sms_voice_v2 := false }

/-- A checkpoint state with one in-progress key. -/
def ckptSample : CheckpointState Nat :=
  { run_id := "run-1", started_at := "t0", config_hash := kfEmpty,
    discovered_regions := [], completed := [],
    in_progress := ["segments:us-east-1:app-123"], errors := [], scan_results := [] }

/-- A pure function raising exactly on input 2. -/
def fBoom : Nat → Except String Nat := fun n =>
  if n = 2 then .error "boom" else .ok (2 * n)

/-- A completion-order result list for fBoom over the items 1, 2, 3. -/
def resBoom : List (Nat × Option Nat × Option String) :=
  [(3, some 6, none), (2, none, some "boom"), (1, some 2, none)]

/-- The result list of a run over the items 10, 20, 30 in which the
shutdown flag was observed after the first dispatch. -/
def resStop : List (Nat × Option Nat × Option String) := [(10, some 20, none)]

/-- A probe with applications only in us-east-1 and access denied
elsewhere. -/
def probeA : String → ProbeOutcome := fun r =>
  if r = "us-east-1" then .ok ["app-1", "app-2"] else .clientError "AccessDeniedException"

/-- probeA with the probe of eu-west-1 failing differently (still a
caught shape). -/
def probeB : String → ProbeOutcome := fun r =>
  if r = "eu-west-1" then .endpointError else probeA r

/-- probeA with the probe of eu-west-1 raising an uncaught exception
(a timeout, say). -/
def probeC : String → ProbeOutcome := fun r =>
  if r = "eu-west-1" then .uncaughtError else probeA r

/-- A fresh rate limiter with capacity 50 started at time 0. -/
def rlSample : RateLimiterState := RateLimiterState.init 50 0

/-! ### Helper lemmas -/

/-- Sorting is invariant under permutation of the input. -/
theorem sortStrings_perm_of_perm {l1 l2 : List String} (h : l1.Perm l2) :
    sortStrings l1 = sortStrings l2 :=
  List.eq_of_perm_of_sorted
    ((List.perm_insertionSort _ l1).trans (h.trans (List.perm_insertionSort _ l2).symm))
    (List.sorted_insertionSort _ l1)
    (List.sorted_insertionSort _ l2)

/-! ### C1 — fingerprint order independence -/

/-- C1 counterexample: the claim says the fingerprint of the
configuration with accounts A then B equals the fingerprint with
accounts B then A; on the code the accounts list is serialized in
input order (config.py line 51 does not sort it), so the two digests
differ. -/
theorem config_hash_account_order_counterexample :
    cfgAccAB.config_hash ≠ cfgAccBA.config_hash := by decide

/-- C1 (amended): permuting the regions, app_ids and scanners lists
leaves config_hash unchanged (they are sorted before hashing), and
config_hash determines the accounts list exactly as given — so a
different accounts list (in particular a different set of accounts,
but also a mere reordering) yields a different fingerprint. -/
theorem config_hash_order_independence (c1 c2 : ScanConfig)
    (hacc : c1.accounts = c2.accounts)
    (hreg : c1.regions.Perm c2.regions)
    (happ : c1.app_ids.Perm c2.app_ids)
    (hsc : c1.scanners.Perm c2.scanners)
    (hflag : c1.no_sms_voice_v2 = c2.no_sms_voice_v2) :
    c1.config_hash = c2.config_hash ∧
      ∀ d1 d2 : ScanConfig, d1.config_hash = d2.config_hash → d1.accounts = d2.accounts := by
  constructor
  · simp [ScanConfig.config_hash, hacc, hflag, sortStrings_perm_of_perm hreg,
      sortStrings_perm_of_perm happ, sortStrings_perm_of_perm hsc]
  · intro d1 d2 h
    exact congrArg ConfigKeyFields.accounts h

/-- C1 witness: permuting all three string lists of a concrete
configuration preserves the digest, while dropping account B from the
accounts-A-B configuration changes it. -/
theorem config_hash_order_independence_witness :
    cfgOrd1.config_hash = cfgOrd2.config_hash ∧ cfgAccAB.config_hash ≠ cfgAccA.config_hash :=
  ⟨(config_hash_order_independence cfgOrd1 cfgOrd2 rfl (by decide) (by decide) (by decide) rfl).1,
   fun h => absurd
     ((config_hash_order_independence cfgOrd1 cfgOrd2 rfl (by decide) (by decide) (by decide)
        rfl).2 cfgAccAB cfgAccA h)
     (by decide)⟩

/-! ### C10 — fingerprint depends only on the five key fields -/

/-- C10: config_hash reads only accounts, regions, app_ids, scanners
and the no_sms_voice_v2 flag; two configurations agreeing on those
five fields share a fingerprint however much max_workers, kpi_days,
output_dir, resume, fresh, json_only, verbose or dry_run differ — so
a checkpoint is accepted on resume even when the KPI window or worker
count changed. -/
theorem config_hash_ignores_non_key_fields (c1 c2 : ScanConfig)
    (hacc : c1.accounts = c2.accounts)
    (hreg : c1.regions = c2.regions)
    (happ : c1.app_ids = c2.app_ids)
    (hsc : c1.scanners = c2.scanners)
    (hflag : c1.no_sms_voice_v2 = c2.no_sms_voice_v2) :
    c1.config_hash = c2.config_hash := by
  simp [ScanConfig.config_hash, hacc, hreg, happ, hsc, hflag]

/-- C10 witness: the configuration with kpi_days 30 and the one with
kpi_days 90, max_workers 50 and every other non-key field changed
share a fingerprint. -/
theorem config_hash_ignores_non_key_fields_witness :
    cfgKpi30.kpi_days ≠ cfgKpi90.kpi_days ∧
      cfgKpi30.max_workers ≠ cfgKpi90.max_workers ∧
      cfgKpi30.config_hash = cfgKpi90.config_hash :=
  ⟨by decide, by decide,
   config_hash_ignores_non_key_fields cfgKpi30 cfgKpi90 rfl rfl rfl rfl rfl⟩

/-! ### C2 — retry policy -/

/-- When every invocation fails with a retryable error, the retry loop
consumes all its iterations and reports the rate-limit failure
wrapping the last error, having counted one retry and one invocation
per iteration. -/
theorem callWithRetryAux_allThrottle {α : Type} (g : Nat → CallResult α)
    (errs : Nat → ClientErr)
    (hg : ∀ n, g n = .clientError (errs n)) (hgr : ∀ n, isRetryable (errs n) = true) :
    ∀ (remaining attempt retries calls : Nat) (last : Option ClientErr), 0 < remaining →
      callWithRetryAux g remaining attempt retries calls last =
        (.rateLimitExceeded (some (errs (attempt + remaining - 1))),
          retries + remaining, calls + remaining) := by
  intro remaining
  induction remaining with
  | zero => intro _ _ _ _ h; exact absurd h (by simp)
  | succ r ih =>
    intro attempt retries calls last _
    simp only [callWithRetryAux, hg attempt, hgr attempt, if_true]
    cases r with
    | zero => simp [callWithRetryAux]
    | succ r2 =>
      rw [ih (attempt + 1) (retries + 1) (calls + 1) (some (errs attempt)) (Nat.succ_pos r2)]
      simp only [Prod.mk.injEq, RetryOutcome.rateLimitExceeded.injEq, Option.some.injEq]
      exact ⟨congrArg errs (by omega), by omega, by omega⟩

/-- C2 counterexample: the claim says an always-throttling call fails
after exactly the configured max attempt count of 5 attempts; the loop
in rate_limiter.py line 67 runs for attempt in range(MAX_RETRIES + 1),
so the function is invoked 6 times before the rate-limit error. -/
theorem call_with_retry_attempts_counterexample :
    (call_with_retry alwaysThrottle).2.2 = 6 ∧
      (call_with_retry alwaysThrottle).2.2 ≠ MAX_RETRIES ∧
      (call_with_retry alwaysThrottle).1 = .rateLimitExceeded (some throttleErr) := by
  decide

/-- C2 (amended): a call that raises a retryable (throttling or 5xx)
failure on its first two invocations and succeeds on the third returns
the success value with total_retries increased by exactly 2 after 3
invocations; a call whose every invocation raises a retryable
throttling failure fails with the distinct rate-limit-exceeded error
wrapping the last underlying failure after exactly MAX_RETRIES + 1 = 6
invocations (the initial attempt plus 5 retries). -/
theorem call_with_retry_policy {α : Type} (f g : Nat → CallResult α) (v : α)
    (e1 e2 : ClientErr) (errs : Nat → ClientErr)
    (h0 : f 0 = .clientError e1) (hr1 : isRetryable e1 = true)
    (h1 : f 1 = .clientError e2) (hr2 : isRetryable e2 = true)
    (h2 : f 2 = .ok v)
    (hg : ∀ n, g n = .clientError (errs n)) (hgr : ∀ n, isRetryable (errs n) = true) :
    call_with_retry f = (.success v, 2, 3) ∧
      call_with_retry g =
        (.rateLimitExceeded (some (errs MAX_RETRIES)), MAX_RETRIES + 1, MAX_RETRIES + 1) := by
  constructor
  · simp [call_with_retry, MAX_RETRIES, callWithRetryAux, h0, h1, h2, hr1, hr2]
  · have h := callWithRetryAux_allThrottle g errs hg hgr (MAX_RETRIES + 1) 0 0 0 none
      (by simp)
    rw [call_with_retry, h]
    norm_num [MAX_RETRIES]

/-- C2 witness: the throttle-twice function returns 42 with 2 retries
in 3 invocations, and the always-throttling function ends in the
rate-limit-exceeded error after 6 invocations. -/
theorem call_with_retry_policy_witness :
    call_with_retry throttleTwice = (.success 42, 2, 3) ∧
      call_with_retry alwaysThrottle =
        (.rateLimitExceeded (some throttleErr), MAX_RETRIES + 1, MAX_RETRIES + 1) := by
  have hthr : isRetryable throttleErr = true := by decide
  exact call_with_retry_policy throttleTwice alwaysThrottle 42 throttleErr throttleErr
    (fun _ => throttleErr) rfl hthr rfl hthr rfl (fun _ => rfl) (fun _ => hthr)

/-! ### C3 — session errors in a multi-account run -/

/-- Unfolding of the account loop: with no session failure among the
leading accounts and a session failure at the next one, the loop
reaches the failing account, scans only the leading accounts, and the
escaping AWSSessionError makes run exit fatally. -/
theorem runAccountsAux_sessionFail (env : AccountConfig → SessionOutcome)
    (pre : List AccountConfig) :
    ∀ (acc post : List AccountConfig) (a : AccountConfig),
      (∀ b ∈ pre, env b ≠ .sessionFail) → env a = .sessionFail →
      runAccountsAux env (pre ++ a :: post) acc = .fatalExit (acc ++ pre) := by
  induction pre with
  | nil =>
    intro acc post a _ ha
    simp [runAccountsAux, ha]
  | cons b pre ih =>
    intro acc post a hpre ha
    have hb : env b ≠ .sessionFail := hpre b (List.mem_cons_self b pre)
    have hpre2 : ∀ c ∈ pre, env c ≠ .sessionFail := fun c hc => hpre c (List.mem_cons_of_mem b hc)
    cases hcb : env b with
    | sessionFail => exact absurd hcb hb
    | stsFail =>
      simp only [List.cons_append, runAccountsAux, hcb, List.append_eq]
      rw [ih (acc ++ [b]) post a hpre2 ha]
      simp
    | ok id2 =>
      simp only [List.cons_append, runAccountsAux, hcb, List.append_eq]
      rw [ih (acc ++ [b]) post a hpre2 ha]
      simp

/-- C3 counterexample: with two configured accounts and a session
failure on the first, the claim says the orchestrator continues with
the second account; on the code the AWSSessionError raised inside
resolve_account_id propagates to the except PinpointEDAError clause of
Orchestrator.run, which exits, so the second account is never
scanned. -/
theorem session_error_continue_counterexample :
    orchestratorRun envFailX [acctX, acctY] = .fatalExit [] ∧
      acctY ∉ (orchestratorRun envFailX [acctX, acctY]).scanned := by decide

/-- C3 (amended): a session error (credentials cannot be obtained or
the role cannot be assumed) on any account aborts the entire run with
a fatal exit after scanning only the accounts that preceded it — the
orchestrator does not continue with the remaining configured accounts.
Only the soft STS identity-resolution failure is non-fatal. -/
theorem session_error_aborts_run (env : AccountConfig → SessionOutcome)
    (pre post : List AccountConfig) (a : AccountConfig)
    (hpre : ∀ b ∈ pre, env b ≠ .sessionFail) (ha : env a = .sessionFail) :
    orchestratorRun env (pre ++ a :: post) = .fatalExit pre ∧
      (orchestratorRun env (pre ++ a :: post)).scanned = pre := by
  have h := runAccountsAux_sessionFail env pre [] post a hpre ha
  rw [orchestratorRun, h]
  simp [RunOutcome.scanned]

/-- C3 witness: session failure on account x with account y still
pending gives a fatal exit with nothing scanned. -/
theorem session_error_aborts_run_witness :
    orchestratorRun envFailX ([] ++ acctX :: [acctY]) = .fatalExit [] :=
  (session_error_aborts_run envFailX [] [acctY] acctX (by intro b hb; cases hb) (by decide)).1

/-! ### C4 — checkpoint mark transitions -/

/-- Looking up a key right after setting it returns the new value. -/
theorem lookup_setKV_self {α : Type} (l : List (String × α)) (k : String) (v : α) :
    (setKV l k v).lookup k = some v := by
  induction l with
  | nil => simp [setKV, List.lookup]
  | cons p rest ih =>
    obtain ⟨k1, v1⟩ := p
    by_cases h : k1 = k
    · subst h
      simp [setKV, List.lookup]
    · have hbeq : (k == k1) = false := beq_eq_false_iff_ne.mpr (Ne.symm h)
      simp [setKV, h, List.lookup, hbeq, ih]

/-- C4: on any checkpoint state whose in-progress list is
duplicate-free (as every state reachable through the synchronized
methods is — mark_in_progress refuses duplicates), mark_completed
makes is_completed true and removes the key from in-progress;
mark_error on a not-yet-completed key leaves is_completed false,
removes the key from in-progress and appends an error entry; and
mark_in_progress is idempotent — applying it twice leaves exactly one
entry for the key. -/
theorem checkpoint_mark_transitions {ρ : Type} (s : CheckpointState ρ) (k : String)
    (count : Nat) (r : Option ρ) (msg nowC nowE : String)
    (hnodup : s.in_progress.Nodup) :
    (is_completed (mark_completed s k count r nowC) k = true ∧
      k ∉ (mark_completed s k count r nowC).in_progress) ∧
    (is_completed s k = false →
      is_completed (mark_error s k msg nowE) k = false ∧
      k ∉ (mark_error s k msg nowE).in_progress ∧
      (mark_error s k msg nowE).errors =
        s.errors ++ [{ key := k, error := msg, timestamp := nowE }]) ∧
    (mark_in_progress (mark_in_progress s k) k).in_progress.count k = 1 := by
  have herase : k ∉ s.in_progress.erase k := by
    intro hmem
    exact ((List.Nodup.mem_erase_iff hnodup).mp hmem).1 rfl
  refine ⟨⟨?_, ?_⟩, ?_, ?_⟩
  · simp [is_completed, mark_completed, lookup_setKV_self]
  · exact herase
  · intro hnc
    refine ⟨hnc, herase, rfl⟩
  · by_cases hmem : k ∈ s.in_progress
    · have h1 : mark_in_progress s k = s := by simp [mark_in_progress, hmem]
      rw [h1, h1]
      exact List.count_eq_one_of_mem hnodup hmem
    · have h1 : mark_in_progress s k =
          { s with in_progress := s.in_progress ++ [k] } := by
        simp [mark_in_progress, hmem]
      have h2 : mark_in_progress { s with in_progress := s.in_progress ++ [k] } k =
          { s with in_progress := s.in_progress ++ [k] } := by
        simp [mark_in_progress]
      rw [h1, h2]
      simp only [List.count_append]
      rw [List.count_eq_zero_of_not_mem hmem]
      simp

/-- C4 witness: on the sample state, completing the in-progress key
marks it completed and clears in-progress, and double
mark_in_progress of a new key records it once. -/
theorem checkpoint_mark_transitions_witness :
    is_completed (mark_completed ckptSample "segments:us-east-1:app-123" 45 (some 7) "t1")
        "segments:us-east-1:app-123" = true ∧
      (mark_in_progress (mark_in_progress ckptSample "segments:us-east-1:app-123")
          "segments:us-east-1:app-123").in_progress.count "segments:us-east-1:app-123" = 1 := by
  have h := checkpoint_mark_transitions ckptSample "segments:us-east-1:app-123" 45 (some 7)
    "denied" "t1" "t2" (by decide)
  exact ⟨h.1.1, h.2.2⟩

/-! ### C5 — checkpoint resume and fingerprint mismatch -/

/-- C5: resuming against an existing on-disk checkpoint whose stored
fingerprint differs from the current one fails with the distinct
config-mismatch error and leaves the on-disk file unchanged; when no
checkpoint file exists (whatever the resume flag), a fresh state
carrying the newly generated run-id is created and persisted. -/
theorem checkpoint_init_behaviour (ρ : Type) (hash : ConfigKeyFields)
    (st : CheckpointState ρ) (freshRunId now : String)
    (hmis : st.config_hash ≠ hash) :
    initCheckpoint ρ hash true (some st) freshRunId now = (.error .configMismatch, some st) ∧
      (∀ resume : Bool,
        initCheckpoint ρ hash resume none freshRunId now =
          (.ok (freshState ρ hash freshRunId now), some (freshState ρ hash freshRunId now))) ∧
      (freshState ρ hash freshRunId now).run_id = freshRunId := by
  refine ⟨?_, ?_, rfl⟩
  · simp [initCheckpoint, hmis]
  · intro resume
    cases resume <;> rfl

/-- C5 witness: resuming with hash kfA against a stored state hashed
kfEmpty fails with the config-mismatch error and the file keeps the
stored state; with no file, the fresh state with run-id r1 is created
and saved. -/
theorem checkpoint_init_behaviour_witness :
    initCheckpoint Nat kfA true (some (freshState Nat kfEmpty "r0" "t0")) "r1" "t1" =
        (.error .configMismatch, some (freshState Nat kfEmpty "r0" "t0")) ∧
      initCheckpoint Nat kfA true none "r1" "t1" =
        (.ok (freshState Nat kfA "r1" "t1"), some (freshState Nat kfA "r1" "t1")) := by
  have h := checkpoint_init_behaviour Nat kfA (freshState Nat kfEmpty "r0" "t0") "r1" "t1"
    (by decide)
  exact ⟨h.1, h.2.1 true⟩

/-! ### C6 — parallel map completeness -/

/-- The first component of a result tuple is the item itself. -/
theorem resultTuple_fst {α β ε : Type} (f : α → Except ε β) (x : α) :
    (resultTuple f x).1 = x := by
  cases hf : f x <;> simp [resultTuple, hf]

/-- C6: with no shutdown requested, every possible map_parallel result
over N items has exactly N tuples; each item on which f succeeds
contributes its (item, value, none) tuple and each item on which f
raises contributes its (item, none, error) tuple — one item failing
never removes or alters another item's tuple — and the multiset of
returned items equals the input items whatever the completion order. -/
theorem map_parallel_complete {α β ε : Type} (f : α → Except ε β) (items : List α)
    (res : List (α × Option β × Option ε))
    (hres : IsMapParallelResult f items res) :
    res.length = items.length ∧
      (∀ x v, x ∈ items → f x = .ok v → (x, some v, none) ∈ res) ∧
      (∀ x e, x ∈ items → f x = .error e → (x, none, some e) ∈ res) ∧
      (∀ t ∈ res, ∃ x ∈ items, t = resultTuple f x) ∧
      (res.map Prod.fst).Perm items := by
  unfold IsMapParallelResult IsMapParallelRun at hres
  rw [List.take_length] at hres
  refine ⟨?_, ?_, ?_, ?_, ?_⟩
  · rw [hres.length_eq, List.length_map]
  · intro x v hx hfx
    have h1 : resultTuple f x ∈ items.map (resultTuple f) := List.mem_map_of_mem _ hx
    have h2 := hres.mem_iff.mpr h1
    simpa [resultTuple, hfx] using h2
  · intro x e hx hfx
    have h1 : resultTuple f x ∈ items.map (resultTuple f) := List.mem_map_of_mem _ hx
    have h2 := hres.mem_iff.mpr h1
    simpa [resultTuple, hfx] using h2
  · intro t ht
    obtain ⟨x, hx, hxt⟩ := List.mem_map.mp (hres.mem_iff.mp ht)
    exact ⟨x, hx, hxt.symm⟩
  · have hperm := hres.map Prod.fst
    have hmm : (items.map (resultTuple f)).map Prod.fst = items := by
      rw [List.map_map]
      have hid : (Prod.fst ∘ resultTuple f) = id := by
        funext x
        simp [Function.comp, resultTuple_fst]
      rw [hid, List.map_id]
    rwa [hmm] at hperm


/-- C6 witness: the completion-order result list of fBoom over the
items 1, 2, 3 has three tuples and contains the error tuple for item 2
and both success tuples. -/
theorem map_parallel_complete_witness :
    resBoom.length = ([1, 2, 3] : List Nat).length ∧
      ((2 : Nat), (none : Option Nat), some "boom") ∈ resBoom ∧
      ((1 : Nat), some 2, (none : Option String)) ∈ resBoom := by
  have h := map_parallel_complete fBoom [1, 2, 3] resBoom
    (by unfold IsMapParallelResult IsMapParallelRun; decide)
  exact ⟨h.1, h.2.2.1 2 "boom" (by decide) rfl, h.2.1 1 2 (by decide) rfl⟩

/-! ### C7 — cooperative shutdown -/

/-- C7: request_shutdown makes should_stop observe true and is
idempotent; in any run whose dispatch loop observed the flag after
submitting the first k items, exactly the k dispatched items run to
completion and contribute their tuples (the multiset of returned items
is exactly the dispatched prefix), and an item never dispatched
produces no tuple at all. -/
theorem shutdown_skips_undispatched {α β ε : Type} (f : α → Except ε β)
    (items : List α) (k : Nat) (res : List (α × Option β × Option ε)) (flag : Bool)
    (hk : k ≤ items.length) (hrun : IsMapParallelRun f items k res) :
    shouldStop (requestShutdown flag) = true ∧
      requestShutdown (requestShutdown flag) = requestShutdown flag ∧
      res.length = k ∧
      (∀ x ∈ items.take k, resultTuple f x ∈ res) ∧
      ((res.map Prod.fst).Perm (items.take k)) ∧
      (∀ x, x ∉ items.take k → ∀ o1 o2, (x, o1, o2) ∉ res) := by
  unfold IsMapParallelRun at hrun
  refine ⟨rfl, rfl, ?_, ?_, ?_, ?_⟩
  · rw [hrun.length_eq, List.length_map, List.length_take]
    exact Nat.min_eq_left hk
  · intro x hx
    exact hrun.mem_iff.mpr (List.mem_map_of_mem _ hx)
  · have hperm := hrun.map Prod.fst
    have hmm : ((items.take k).map (resultTuple f)).map Prod.fst = items.take k := by
      rw [List.map_map]
      have hid : (Prod.fst ∘ resultTuple f) = id := by
        funext y
        simp [Function.comp, resultTuple_fst]
      rw [hid, List.map_id]
    rwa [hmm] at hperm
  · intro x hx o1 o2 hmem
    obtain ⟨y, hy, hyt⟩ := List.mem_map.mp (hrun.mem_iff.mp hmem)
    have : y = x := by
      have := congrArg Prod.fst hyt
      rwa [resultTuple_fst] at this
    exact hx (this ▸ hy)

/-- C7 witness: over items 10, 20, 30 with the flag observed after one
dispatch, the run returns exactly the tuple of item 10, and items 20
and 30 contribute no tuple. -/
theorem shutdown_skips_undispatched_witness :
    resStop.length = 1 ∧
      ∀ o1 o2, ((20 : Nat), (o1 : Option Nat), (o2 : Option String)) ∉ resStop := by
  have h := shutdown_skips_undispatched fBoom [10, 20, 30] 1 resStop false
    (by decide) (by unfold IsMapParallelRun; decide)
  exact ⟨h.2.2.1, fun o1 o2 => h.2.2.2.2.2 20 (by decide) o1 o2⟩

/-! ### C8 — region discovery probe isolation -/

/-- Membership in the completed-discovery map characterized: exactly
the candidate regions whose probe returned a nonempty application
list.  This holds for every probe environment since regions whose
probe raised (caught or uncaught) contribute no entry to the map. -/
theorem discoverMap_mem (probe : String → ProbeOutcome) (r : String)
    (apps : List String) :
    (r, apps) ∈ discoverMap probe ↔
      r ∈ PINPOINT_REGIONS ∧ probe r = .ok apps ∧ apps ≠ [] := by
  unfold discoverMap
  rw [List.mem_filterMap]
  constructor
  · rintro ⟨a, ha, hg⟩
    cases hpa : probe a with
    | ok l =>
      rw [keepProbe, probe_region, hpa] at hg
      by_cases hl : l.isEmpty
      · simp [hl] at hg
      · simp only [hl, if_false, Bool.false_eq_true, Option.some.injEq, Prod.mk.injEq] at hg
        obtain ⟨rfl, rfl⟩ := hg
        exact ⟨ha, hpa, by simpa using hl⟩
    | clientError code =>
      rw [keepProbe, probe_region, hpa] at hg
      simp at hg
    | endpointError =>
      rw [keepProbe, probe_region, hpa] at hg
      simp at hg
    | uncaughtError =>
      rw [keepProbe, probe_region, hpa] at hg
      simp at hg
  · rintro ⟨hr, hpr, hne⟩
    refine ⟨r, hr, ?_⟩
    rw [keepProbe, probe_region, hpr]
    simp [hne]

/-- When no probe raises an uncaught exception, discovery completes
and returns the map. -/
theorem discover_regions_ok (probe : String → ProbeOutcome)
    (hcaught : ∀ r ∈ PINPOINT_REGIONS, isUncaught (probe r) = false) :
    discover_regions probe = .ok (discoverMap probe) := by
  rw [discover_regions, if_neg]
  intro hany
  obtain ⟨r, hr, hu⟩ := List.any_eq_true.mp hany
  rw [hcaught r hr] at hu
  cases hu

/-- C8 counterexample: the claim says any single probe failure is
treated as that region having no resources and never aborts the other
probes; with the eu-west-1 probe raising a shape outside the two
classes probe_region catches (e.g. a botocore timeout), future.result()
re-raises it in the gather loop and discovery aborts — no map is
returned at all, although the us-east-1 probe found applications. -/
theorem discover_regions_abort_counterexample :
    probeC "us-east-1" = .ok ["app-1", "app-2"] ∧
      discover_regions probeC = .error () :=
  ⟨rfl, rfl⟩

/-- C8 (amended): a probe failure of either shape probe_region catches
— a ClientError (access denied or otherwise) or an
EndpointConnectionError — is treated as that region having no
resources and never aborts or disturbs the other probes; when every
probe failure is of a caught shape, discovery completes and the
returned map contains exactly the regions whose probe found at least
one resource (each with its nonempty id list), and changing one
region's probe outcome leaves every other region's membership
unchanged; but a probe failure of any other shape escapes probe_region,
is re-raised by future.result() in the gather loop, and aborts the
whole discovery with no returned map. -/
theorem discover_regions_isolation (probe probe2 : String → ProbeOutcome)
    (r0 : String)
    (hcaught : ∀ r ∈ PINPOINT_REGIONS, isUncaught (probe r) = false)
    (hcaught2 : ∀ r ∈ PINPOINT_REGIONS, isUncaught (probe2 r) = false)
    (hagree : ∀ r, r ≠ r0 → probe2 r = probe r) :
    discover_regions probe = .ok (discoverMap probe) ∧
      discover_regions probe2 = .ok (discoverMap probe2) ∧
      (∀ r apps, (r, apps) ∈ discoverMap probe ↔
        r ∈ PINPOINT_REGIONS ∧ probe r = .ok apps ∧ apps ≠ []) ∧
      (∀ r code apps, probe r = .clientError code →
        (r, apps) ∉ discoverMap probe) ∧
      (∀ r apps, probe r = .endpointError → (r, apps) ∉ discoverMap probe) ∧
      (∀ r apps, r ≠ r0 →
        ((r, apps) ∈ discoverMap probe2 ↔ (r, apps) ∈ discoverMap probe)) ∧
      (∀ probe3 : String → ProbeOutcome,
        (∃ r ∈ PINPOINT_REGIONS, isUncaught (probe3 r) = true) →
        discover_regions probe3 = .error ()) := by
  refine ⟨discover_regions_ok probe hcaught, discover_regions_ok probe2 hcaught2,
    discoverMap_mem probe, ?_, ?_, ?_, ?_⟩
  · intro r code apps hpr hmem
    have h := ((discoverMap_mem probe r apps).mp hmem).2.1
    rw [hpr] at h
    cases h
  · intro r apps hpr hmem
    have h := ((discoverMap_mem probe r apps).mp hmem).2.1
    rw [hpr] at h
    cases h
  · intro r apps hr
    rw [discoverMap_mem, discoverMap_mem, hagree r hr]
  · intro probe3 hex
    obtain ⟨r, hr, hu⟩ := hex
    rw [discover_regions, if_pos (List.any_eq_true.mpr ⟨r, hr, hu⟩)]

/-- C8 witness: with applications only in us-east-1 and a caught
failure everywhere else, discovery completes; the map contains
us-east-1 with its two apps and excludes the denied region eu-west-1;
changing the eu-west-1 probe between the two caught failure shapes
leaves the us-east-1 membership unchanged; and the probe environment
whose eu-west-1 probe raises an uncaught shape aborts discovery. -/
theorem discover_regions_isolation_witness :
    discover_regions probeA = .ok (discoverMap probeA) ∧
      ("us-east-1", ["app-1", "app-2"]) ∈ discoverMap probeA ∧
      ("eu-west-1", ["app-9"]) ∉ discoverMap probeA ∧
      (("us-east-1", ["app-1", "app-2"]) ∈ discoverMap probeB ↔
        ("us-east-1", ["app-1", "app-2"]) ∈ discoverMap probeA) ∧
      discover_regions probeC = .error () := by
  have hcaughtA : ∀ r ∈ PINPOINT_REGIONS, isUncaught (probeA r) = false := by
    intro r hr
    by_cases h : r = "us-east-1" <;> simp [probeA, h, isUncaught]
  have hcaughtB : ∀ r ∈ PINPOINT_REGIONS, isUncaught (probeB r) = false := by
    intro r hr
    by_cases h : r = "eu-west-1"
    · simp [probeB, h, isUncaught]
    · by_cases h2 : r = "us-east-1" <;> simp [probeB, probeA, h, h2, isUncaught]
  have hagree : ∀ r, r ≠ "eu-west-1" → probeB r = probeA r := by
    intro r hr
    simp [probeB, hr]
  have h := discover_regions_isolation probeA probeB "eu-west-1" hcaughtA hcaughtB hagree
  refine ⟨h.1, (h.2.2.1 "us-east-1" ["app-1", "app-2"]).mpr ⟨by decide, rfl, by decide⟩,
    ?_, ?_, ?_⟩
  · exact h.2.2.2.1 "eu-west-1" "AccessDeniedException" ["app-9"] rfl
  · exact h.2.2.2.2.2.1 "us-east-1" ["app-1", "app-2"] (by decide)
  · exact h.2.2.2.2.2.2 probeC ⟨"eu-west-1", by decide, by decide⟩

/-! ### C9 — token bucket invariants -/

/-- Refilling at the timestamp of the last refill changes nothing when
the bucket respects its capacity. -/
theorem refill_self (s : RateLimiterState) (h : s.tokens ≤ s.max_tokens) :
    refill s s.last_refill = s := by
  simp [refill, min_eq_right h]

/-- A successful acquire step: one token available after the refill
means the step takes it and counts the call. -/
theorem tryAcquire_pos (s : RateLimiterState) (now : ℚ)
    (hc : 1 ≤ (refill s now).tokens) :
    tryAcquire s now =
      ({ refill s now with tokens := (refill s now).tokens - 1, total_calls := (refill s now).total_calls + 1 }, true) := by
  simp [tryAcquire, hc]

/-- A failed acquire step: no token after the refill means the step
only refills and reports that the loop must wait. -/
theorem tryAcquire_neg (s : RateLimiterState) (now : ℚ)
    (hc : ¬ 1 ≤ (refill s now).tokens) :
    tryAcquire s now = (refill s now, false) := by
  simp [tryAcquire, hc]

/-- Draining a bucket holding exactly n tokens with n instantaneous
acquires: every acquire succeeds, ending with an empty bucket and n
counted calls. -/
theorem iterTryAcquire_drain (t0 : ℚ) :
    ∀ (n : Nat) (s : RateLimiterState), s.tokens = (n : ℚ) →
      s.tokens ≤ s.max_tokens → s.last_refill = t0 →
      iterTryAcquire t0 n s = { s with tokens := 0, total_calls := s.total_calls + n } := by
  intro n
  induction n with
  | zero =>
    intro s htok hmax hlast
    simp only [iterTryAcquire]
    cases s
    simp_all
  | succ m ih =>
    intro s htok hmax hlast
    have hrefill : refill s t0 = s := by
      rw [← hlast]
      exact refill_self s hmax
    have hone : (1 : ℚ) ≤ s.tokens := by
      rw [htok]
      push_cast
      have : (0 : ℚ) ≤ (m : ℚ) := by positivity
      linarith
    have hstep : (tryAcquire s t0).1 =
        { s with tokens := s.tokens - 1, total_calls := s.total_calls + 1 } := by
      rw [tryAcquire_pos s t0 (by rw [hrefill]; exact hone)]
      rw [hrefill]
    simp only [iterTryAcquire, hstep]
    rw [ih { s with tokens := s.tokens - 1, total_calls := s.total_calls + 1 }
      (by rw [htok]; push_cast; ring)
      (by
        have h2 : s.tokens - 1 ≤ s.tokens := by linarith
        exact le_trans h2 hmax)
      hlast]
    cases s
    simp
    omega

/-- C9: under the monotone-clock assumptions (now is not before the
last refill, refill rate nonnegative) the lazy refill and the acquire
step preserve 0 ≤ tokens ≤ capacity; a successful acquire step takes
exactly one token from the refilled bucket and counts exactly one
call, a failed step changes nothing beyond the refill (the loop waits,
it never raises); and from a fresh limiter of capacity c, c
instantaneous acquires all succeed, draining the bucket to exactly 0
with c counted calls, while the next acquire step finds no token —
it waits rather than erroring, the count stays c and the bucket stays
at 0. -/
theorem rate_limiter_invariants (s : RateLimiterState) (now : ℚ)
    (h0 : 0 ≤ s.tokens) (h1 : s.tokens ≤ s.max_tokens)
    (hm : s.last_refill ≤ now) (hr : 0 ≤ s.refill_rate) :
    (0 ≤ (refill s now).tokens ∧ (refill s now).tokens ≤ (refill s now).max_tokens) ∧
      (0 ≤ (tryAcquire s now).1.tokens ∧
        (tryAcquire s now).1.tokens ≤ (tryAcquire s now).1.max_tokens) ∧
      ((tryAcquire s now).2 = true →
        (tryAcquire s now).1.tokens = (refill s now).tokens - 1 ∧
        (tryAcquire s now).1.total_calls = s.total_calls + 1) ∧
      ((tryAcquire s now).2 = false → (tryAcquire s now).1 = refill s now) ∧
      (∀ (c : Nat) (t0 : ℚ),
        iterTryAcquire t0 c (RateLimiterState.init (c : ℚ) t0) =
          { RateLimiterState.init (c : ℚ) t0 with tokens := 0, total_calls := c } ∧
        (tryAcquire (iterTryAcquire t0 c (RateLimiterState.init (c : ℚ) t0)) t0).2 = false ∧
        (tryAcquire (iterTryAcquire t0 c (RateLimiterState.init (c : ℚ) t0)) t0).1.total_calls
          = c ∧
        (tryAcquire (iterTryAcquire t0 c (RateLimiterState.init (c : ℚ) t0)) t0).1.tokens
          = 0) := by
  have hmax0 : (0 : ℚ) ≤ s.max_tokens := le_trans h0 h1
  have hfill0 : 0 ≤ (refill s now).tokens := by
    rw [refill]
    exact le_min hmax0 (add_nonneg h0 (mul_nonneg (by linarith) hr))
  have hfillmax : (refill s now).tokens ≤ s.max_tokens := by
    rw [refill]
    exact min_le_left _ _
  refine ⟨⟨hfill0, hfillmax⟩, ?_, ?_, ?_, ?_⟩
  · by_cases hc : (1 : ℚ) ≤ (refill s now).tokens
    · rw [tryAcquire_pos s now hc]
      constructor
      · show (0 : ℚ) ≤ (refill s now).tokens - 1
        linarith
      · show (refill s now).tokens - 1 ≤ s.max_tokens
        linarith
    · rw [tryAcquire_neg s now hc]
      exact ⟨hfill0, hfillmax⟩
  · intro htrue
    by_cases hc : (1 : ℚ) ≤ (refill s now).tokens
    · rw [tryAcquire_pos s now hc]
      exact ⟨rfl, rfl⟩
    · rw [tryAcquire_neg s now hc] at htrue
      cases htrue
  · intro hfalse
    by_cases hc : (1 : ℚ) ≤ (refill s now).tokens
    · rw [tryAcquire_pos s now hc] at hfalse
      cases hfalse
    · rw [tryAcquire_neg s now hc]
  · intro c t0
    have hcast : (0 : ℚ) ≤ (c : ℚ) := Nat.cast_nonneg c
    have hdrain := iterTryAcquire_drain t0 c (RateLimiterState.init (c : ℚ) t0) rfl
      (le_refl _) rfl
    have hdrain2 : iterTryAcquire t0 c (RateLimiterState.init (c : ℚ) t0) =
        { RateLimiterState.init (c : ℚ) t0 with tokens := 0, total_calls := c } := by
      rw [hdrain]
      simp [RateLimiterState.init]
    have href := refill_self
      { RateLimiterState.init (c : ℚ) t0 with tokens := 0, total_calls := c }
      (by show (0 : ℚ) ≤ (c : ℚ); exact hcast)
    have htry := tryAcquire_neg
      { RateLimiterState.init (c : ℚ) t0 with tokens := 0, total_calls := c } t0
      (by rw [show ({ RateLimiterState.init (c : ℚ) t0 with tokens := 0, total_calls := c } : RateLimiterState).last_refill = t0 from rfl] at href; rw [href]; norm_num)
    rw [show ({ RateLimiterState.init (c : ℚ) t0 with tokens := 0, total_calls := c } : RateLimiterState).last_refill = t0 from rfl] at href
    refine ⟨hdrain2, ?_, ?_, ?_⟩ <;> rw [hdrain2, htry, href]

/-- C9 witness: the invariants instantiated at the sample limiter of
capacity 50 at time 1, and the drain scenario at capacity 50: after 50
instantaneous acquires the 51st finds no token, waits, and total_calls
stays 50. -/
theorem rate_limiter_invariants_witness :
    0 ≤ (refill rlSample 1).tokens ∧
      (tryAcquire (iterTryAcquire 0 50 (RateLimiterState.init ((50 : Nat) : ℚ) 0)) 0).2
        = false ∧
      (tryAcquire (iterTryAcquire 0 50 (RateLimiterState.init ((50 : Nat) : ℚ) 0)) 0).1.total_calls
        = 50 := by
  have h := rate_limiter_invariants rlSample 1 (by norm_num [rlSample, RateLimiterState.init])
    (by norm_num [rlSample, RateLimiterState.init])
    (by norm_num [rlSample, RateLimiterState.init])
    (by norm_num [rlSample, RateLimiterState.init])
  exact ⟨h.1.1, (h.2.2.2.2 50 0).2.1, (h.2.2.2.2 50 0).2.2.1⟩

end PinpointEDA
